import Mathlib

/-!
Shallow embedding of the `tex-convert` crate of mhw-stickers-helper: the
TEX/DDS container transcoder.  Byte streams are `List Nat` (each element a
byte value < 256); machine integers are `Int` with explicit two's-complement
encoding at the byte boundary; Rust's truncating `i32` division is
`Int.tdiv`; fallible reads return `Option`, fallible conversions return
`Except ConvError`.
-/

namespace TexConvert

/-! ## Byte-level codec (little-endian, two's complement) -/

/-- Encoding of an `i32` value as its 4 little-endian bytes
(`i32::to_le_bytes` / `WriteBytesExt::write_i32::<LE>`). -/
def i32ToBytes (v : Int) : List Nat :=
  let n := (v % 4294967296).toNat
  [n % 256, n / 256 % 256, n / 65536 % 256, n / 16777216 % 256]

/-- Encoding of the low 16 bits of an integer as 2 little-endian bytes
(Rust `as i16` truncating cast followed by `write_i16::<LE>`). -/
def i16ToBytes (v : Int) : List Nat :=
  let n := (v % 65536).toNat
  [n % 256, n / 256]

/-- Decoding of 4 little-endian bytes as a signed 32-bit integer. -/
def decodeI32 (b0 b1 b2 b3 : Nat) : Int :=
  let n := b0 + 256 * b1 + 65536 * b2 + 16777216 * b3
  if n < 2147483648 then (n : Int) else (n : Int) - 4294967296

/-- Decoding of 8 little-endian bytes as a signed 64-bit integer. -/
def decodeI64 (b0 b1 b2 b3 b4 b5 b6 b7 : Nat) : Int :=
  let n := b0 + 256 * b1 + 65536 * b2 + 16777216 * b3 + 4294967296 * b4
    + 1099511627776 * b5 + 281474976710656 * b6 + 72057594037927936 * b7
  if n < 9223372036854775808 then (n : Int) else (n : Int) - 18446744073709551616

/-- Reading of an `i32` at absolute offset `off` of a byte stream; `none`
models the `std::io` error on a truncated stream. -/
def readI32 (s : List Nat) (off : Nat) : Option Int :=
  match s.drop off with
  | b0 :: b1 :: b2 :: b3 :: _ => some (decodeI32 b0 b1 b2 b3)
  | _ => none

/-- Reading of an `i64` at absolute offset `off` of a byte stream. -/
def readI64 (s : List Nat) (off : Nat) : Option Int :=
  match s.drop off with
  | b0 :: b1 :: b2 :: b3 :: b4 :: b5 :: b6 :: b7 :: _ =>
      some (decodeI64 b0 b1 b2 b3 b4 b5 b6 b7)
  | _ => none

/-- Reading of 4 raw bytes at absolute offset `off` (`read_exact` into a
`[u8; 4]` buffer). -/
def readBytes4 (s : List Nat) (off : Nat) : Option (List Nat) :=
  match s.drop off with
  | b0 :: b1 :: b2 :: b3 :: _ => some [b0, b1, b2, b3]
  | _ => none

/-! ## Error type (crates/tex-convert/src/error.rs) -/

/-- Errors of the conversion core: `Error::BadMagic(expected, actual)`,
`Error::UnknownTexFormat`, and `Error::IO` (payload dropped). -/
inductive ConvError where
  | badMagic (expected actual : Int)
  | unknownTexFormat
  | ioRead
deriving DecidableEq, Repr

/-! ## Format registry (crates/tex-convert/src/spec/tex.rs) -/

/-- TexFormat enum of spec/tex.rs, with the `#[repr(i32)]` discriminants
recorded by `TexFormat.code`. -/
inductive TexFormat where
  | DxgiFormatUnknown
  | DxgiFormatR8G8B8A8Unorm
  | DxgiFormatR8G8B8A8UnormSRGB
  | DxgiFormatR8G8Unorm
  | DxgiFormatBc1Unorm
  | DxgiFormatBc1UnormSRGB
  | DxgiFormatBc4Unorm
  | DxgiFormatBc5Unorm
  | DxgiFormatBc6hUf16
  | DxgiFormatBc7Unorm
  | DxgiFormatBc7UnormSRGB
deriving DecidableEq, Repr

namespace TexFormat

/-- Numeric `repr(i32)` discriminant of each TexFormat (`format as i32`). -/
def code : TexFormat → Int
  | DxgiFormatUnknown => 0
  | DxgiFormatR8G8B8A8Unorm => 7
  | DxgiFormatR8G8B8A8UnormSRGB => 9
  | DxgiFormatR8G8Unorm => 19
  | DxgiFormatBc1Unorm => 22
  | DxgiFormatBc1UnormSRGB => 23
  | DxgiFormatBc4Unorm => 24
  | DxgiFormatBc5Unorm => 26
  | DxgiFormatBc6hUf16 => 28
  | DxgiFormatBc7Unorm => 30
  | DxgiFormatBc7UnormSRGB => 31

/-- Lookup of a TexFormat by its numeric code (`TexFormat::from_i32`,
derived by `num_derive::FromPrimitive` over the `repr(i32)` discriminants). -/
def fromI32 (c : Int) : Option TexFormat :=
  if c = 0 then some DxgiFormatUnknown
  else if c = 7 then some DxgiFormatR8G8B8A8Unorm
  else if c = 9 then some DxgiFormatR8G8B8A8UnormSRGB
  else if c = 19 then some DxgiFormatR8G8Unorm
  else if c = 22 then some DxgiFormatBc1Unorm
  else if c = 23 then some DxgiFormatBc1UnormSRGB
  else if c = 24 then some DxgiFormatBc4Unorm
  else if c = 26 then some DxgiFormatBc5Unorm
  else if c = 28 then some DxgiFormatBc6hUf16
  else if c = 30 then some DxgiFormatBc7Unorm
  else if c = 31 then some DxgiFormatBc7UnormSRGB
  else none

/-- DDS four-character pixel-format tag of each format, as 4 ASCII bytes
(`TexFormat::magic`). -/
def magicBytes : TexFormat → List Nat
  | DxgiFormatUnknown => [0x55, 0x4E, 0x4B, 0x4E]
  | DxgiFormatR8G8B8A8Unorm => [0x44, 0x58, 0x31, 0x30]
  | DxgiFormatR8G8B8A8UnormSRGB => [0x44, 0x58, 0x31, 0x30]
  | DxgiFormatR8G8Unorm => [0x44, 0x58, 0x31, 0x30]
  | DxgiFormatBc1Unorm => [0x44, 0x58, 0x54, 0x31]
  | DxgiFormatBc1UnormSRGB => [0x44, 0x58, 0x31, 0x30]
  | DxgiFormatBc4Unorm => [0x42, 0x43, 0x34, 0x55]
  | DxgiFormatBc5Unorm => [0x42, 0x43, 0x35, 0x55]
  | DxgiFormatBc6hUf16 => [0x44, 0x58, 0x31, 0x30]
  | DxgiFormatBc7Unorm => [0x44, 0x58, 0x31, 0x30]
  | DxgiFormatBc7UnormSRGB => [0x44, 0x58, 0x31, 0x30]

/-- ASCII bytes of the generic tag "DX10". -/
def dx10Tag : List Nat := [0x44, 0x58, 0x31, 0x30]

/-- Resolution of a four-character tag to a provisional TexFormat
(`TexFormat::from_magic`); the generic "DX10" tag yields the provisional
default `DxgiFormatBc7Unorm`, unrecognized tags yield
`DxgiFormatUnknown`. -/
def from_magic (m : List Nat) : TexFormat :=
  if m = [0x55, 0x4E, 0x4B, 0x4E] then DxgiFormatUnknown
  else if m = [0x53, 0x52, 0x47, 0x42] then DxgiFormatR8G8B8A8UnormSRGB
  else if m = [0x44, 0x58, 0x54, 0x31] then DxgiFormatBc1Unorm
  else if m = [0x42, 0x43, 0x31, 0x53] then DxgiFormatBc1UnormSRGB
  else if m = [0x42, 0x43, 0x34, 0x55] then DxgiFormatBc4Unorm
  else if m = [0x42, 0x43, 0x35, 0x55] then DxgiFormatBc5Unorm
  else if m = [0x44, 0x58, 0x31, 0x30] then DxgiFormatBc7Unorm
  else DxgiFormatUnknown

end TexFormat

/-- Modelled from the spec: the `DxgiFormat` enumeration of the crate's
`spec` module (its defining file is not among the provided sources; only
`spec/tex.rs` is).  Per the spec's glossary the DXGI format code is the
"numeric identifier from the DirectX graphics API's format enumeration",
so the variants carry the standard `DXGI_FORMAT` values; only the ten
variants that the `TryFrom` impls of spec/tex.rs name are relevant to the
core. -/
inductive DxgiFormat where
  | R8G8B8A8Unorm
  | R8G8B8A8UnormSrgb
  | R8G8Unorm
  | Bc1Unorm
  | Bc1UnormSrgb
  | Bc4Unorm
  | Bc5Unorm
  | Bc6hUf16
  | Bc7Unorm
  | Bc7UnormSrgb
deriving DecidableEq, Repr

namespace DxgiFormat

/-- Modelled from the spec: numeric code of each `DxgiFormat` variant,
the standard `DXGI_FORMAT` enumeration value (`dds_format as i32`). -/
def code : DxgiFormat → Int
  | R8G8B8A8Unorm => 28
  | R8G8B8A8UnormSrgb => 29
  | R8G8Unorm => 49
  | Bc1Unorm => 71
  | Bc1UnormSrgb => 72
  | Bc4Unorm => 80
  | Bc5Unorm => 83
  | Bc6hUf16 => 95
  | Bc7Unorm => 98
  | Bc7UnormSrgb => 99

/-- Modelled from the spec: `DxgiFormat::from_i32` lookup by numeric
DXGI code.  Codes naming DXGI formats outside the ten supported variants
make the subsequent `TryFrom<DxgiFormat> for TexFormat` fail with
`UnknownTexFormat`, so collapsing them to `none` here yields the same
observable behaviour of the converter. -/
def fromI32 (c : Int) : Option DxgiFormat :=
  if c = 28 then some R8G8B8A8Unorm
  else if c = 29 then some R8G8B8A8UnormSrgb
  else if c = 49 then some R8G8Unorm
  else if c = 71 then some Bc1Unorm
  else if c = 72 then some Bc1UnormSrgb
  else if c = 80 then some Bc4Unorm
  else if c = 83 then some Bc5Unorm
  else if c = 95 then some Bc6hUf16
  else if c = 98 then some Bc7Unorm
  else if c = 99 then some Bc7UnormSrgb
  else none

end DxgiFormat

/-- Conversion `TryFrom<DxgiFormat> for TexFormat` of spec/tex.rs
(lines 129-147). -/
def texFormatOfDxgi : DxgiFormat → TexFormat
  | DxgiFormat.R8G8B8A8Unorm => TexFormat.DxgiFormatR8G8B8A8Unorm
  | DxgiFormat.R8G8B8A8UnormSrgb => TexFormat.DxgiFormatR8G8B8A8UnormSRGB
  | DxgiFormat.R8G8Unorm => TexFormat.DxgiFormatR8G8Unorm
  | DxgiFormat.Bc1Unorm => TexFormat.DxgiFormatBc1Unorm
  | DxgiFormat.Bc1UnormSrgb => TexFormat.DxgiFormatBc1UnormSRGB
  | DxgiFormat.Bc4Unorm => TexFormat.DxgiFormatBc4Unorm
  | DxgiFormat.Bc5Unorm => TexFormat.DxgiFormatBc5Unorm
  | DxgiFormat.Bc6hUf16 => TexFormat.DxgiFormatBc6hUf16
  | DxgiFormat.Bc7Unorm => TexFormat.DxgiFormatBc7Unorm
  | DxgiFormat.Bc7UnormSrgb => TexFormat.DxgiFormatBc7UnormSRGB

/-- Modelled from the spec: the registry's `dx10_code` mapping used by
tex2dds.rs line 66 (`info.format.try_into()` into `spec::DxgiFormat`);
its defining impl lives in the absent `spec` module file.  It is the
inverse of the `TryFrom<DxgiFormat> for TexFormat` table of spec/tex.rs;
`DxgiFormatUnknown` has no DXGI counterpart and never reaches this map
(the converter rejects it earlier), any value works for it. -/
def dxgiOfTexFormat : TexFormat → DxgiFormat
  | TexFormat.DxgiFormatUnknown => DxgiFormat.Bc7Unorm
  | TexFormat.DxgiFormatR8G8B8A8Unorm => DxgiFormat.R8G8B8A8Unorm
  | TexFormat.DxgiFormatR8G8B8A8UnormSRGB => DxgiFormat.R8G8B8A8UnormSrgb
  | TexFormat.DxgiFormatR8G8Unorm => DxgiFormat.R8G8Unorm
  | TexFormat.DxgiFormatBc1Unorm => DxgiFormat.Bc1Unorm
  | TexFormat.DxgiFormatBc1UnormSRGB => DxgiFormat.Bc1UnormSrgb
  | TexFormat.DxgiFormatBc4Unorm => DxgiFormat.Bc4Unorm
  | TexFormat.DxgiFormatBc5Unorm => DxgiFormat.Bc5Unorm
  | TexFormat.DxgiFormatBc6hUf16 => DxgiFormat.Bc6hUf16
  | TexFormat.DxgiFormatBc7Unorm => DxgiFormat.Bc7Unorm
  | TexFormat.DxgiFormatBc7UnormSRGB => DxgiFormat.Bc7UnormSrgb

/-- Membership in `TEX_WITH_4BPP` (block formats at 4 bits per pixel). -/
def is4bpp (f : TexFormat) : Bool :=
  f = TexFormat.DxgiFormatBc1Unorm || f = TexFormat.DxgiFormatBc1UnormSRGB
    || f = TexFormat.DxgiFormatBc4Unorm

/-- Membership in `TEX_WITH_16BPP`. -/
def is16bpp (f : TexFormat) : Bool :=
  f = TexFormat.DxgiFormatR8G8Unorm

/-- Membership in `TEX_OF_NEW_DDS` (formats flagged as "new DDS" in the
TEX header). -/
def isNewDds (f : TexFormat) : Bool :=
  f = TexFormat.DxgiFormatBc7Unorm || f = TexFormat.DxgiFormatBc7UnormSRGB
    || f = TexFormat.DxgiFormatBc6hUf16

/-! ## Fixed byte blocks (dds2tex.rs / tex2dds.rs constants) -/

/-- Constant `W_MAGIC_NUMBER_TEX` of dds2tex.rs: 20-byte TEX preamble. -/
def W_MAGIC_NUMBER_TEX : List Nat :=
  [0x54, 0x45, 0x58, 0x00, 0x10, 0x00, 0x00, 0x00, 0x00, 0x00, 0x00, 0x00,
   0x00, 0x00, 0x00, 0x00, 0x02, 0x00, 0x00, 0x00]

/-- Constant `TEX_FIXED_UNKN` of dds2tex.rs: 28 reserved bytes. -/
def TEX_FIXED_UNKN : List Nat :=
  [0x01, 0x00, 0x00, 0x00, 0x00, 0x00, 0x00, 0x00, 0x00, 0x00, 0x00, 0x00,
   0x00, 0x00, 0x00, 0x00, 0xFF, 0xFF, 0xFF, 0xFF, 0x00, 0x00, 0x00, 0x00,
   0x00, 0x00, 0x00, 0x00]

/-- Constant `W_MAGIC_NUMBER_DDS` of tex2dds.rs: DDS magic "DDS ", header
size 0x7C, and the flags word 0x000A1007. -/
def W_MAGIC_NUMBER_DDS : List Nat :=
  [0x44, 0x44, 0x53, 0x20, 0x7C, 0x00, 0x00, 0x00, 0x07, 0x10, 0x0A, 0x00]

/-- Constant `COMPRESS_OPTION` of tex2dds.rs. -/
def COMPRESS_OPTION : List Nat := [0x08, 0x10, 0x40, 0x00]

/-- Constant `DX10_FIXED_FLAGS` of tex2dds.rs: resource dimension 3,
misc flag 0, array size 1, misc flags2 0. -/
def DX10_FIXED_FLAGS : List Nat :=
  [0x03, 0x00, 0x00, 0x00, 0x00, 0x00, 0x00, 0x00, 0x01, 0x00, 0x00, 0x00,
   0x00, 0x00, 0x00, 0x00]

/-- Magic constant `TexInfo::MAGIC` (0x00584554, ASCII "TEX\0"). -/
def TEX_MAGIC : Int := 0x00584554

/-- Magic constant `DDS_MAGIC` of dds2tex.rs (0x20534444, ASCII "DDS "). -/
def DDS_MAGIC : Int := 0x20534444

/-! ## Mip-chain offset calculator (dds2tex.rs lines 114-137) -/

/-- Byte size of one mip level: `cur_width*cur_height/2` for the 4-bit
class, `*2` for the 16-bit class, `*4` for a raw surface, else `*1`
(branch order as in the source). -/
def levelSize (f : TexFormat) (is_raw : Bool) (cw ch : Int) : Int :=
  if is4bpp f then Int.tdiv (cw * ch) 2
  else if is16bpp f then cw * ch * 2
  else if is_raw then cw * ch * 4
  else cw * ch

/-- Dimension floor applied after each halving (`max_width` in the
source): 2 for a raw surface, 4 otherwise. -/
def minDim (is_raw : Bool) : Int := if is_raw then 2 else 4

/-- Mip-offset chain of the dds2tex loop: per level the written
`(base_loc, 0)` entry paired with that level's byte size; after each
level width and height are halved (truncating `i32` division) and clamped
to the floor, and `base_loc` advances by the byte size. -/
def mipChain (f : TexFormat) (is_raw : Bool) :
    Nat → Int → Int → Int → List (Int × Int)
  | 0, _, _, _ => []
  | n + 1, cw, ch, base =>
      (base, levelSize f is_raw cw ch) ::
        mipChain f is_raw n (max (Int.tdiv cw 2) (minDim is_raw))
          (max (Int.tdiv ch 2) (minDim is_raw)) (base + levelSize f is_raw cw ch)

/-- Serialized mip-offset table: per entry the 32-bit base offset followed
by a 32-bit zero word. -/
def mipTableBytes (f : TexFormat) (is_raw : Bool)
    (n : Nat) (cw ch base : Int) : List Nat :=
  (mipChain f is_raw n cw ch base).flatMap fun e => i32ToBytes e.1 ++ i32ToBytes 0

/-! ## TEX writer (dds2tex.rs lines 76-137) -/

/-- Three repeated groups of width fields (dds2tex.rs lines 100-111): the
half width (full width for raw surfaces and `R8G8`) and the width as
16-bit values, then 8 reserved bytes. -/
def widthGroup (w : Int) (f : TexFormat) (is_raw : Bool) : List Nat :=
  (if is_raw || f = TexFormat.DxgiFormatR8G8Unorm then i16ToBytes w
   else i16ToBytes (Int.tdiv w 2)) ++ (i16ToBytes w ++ List.replicate 8 0)

/-- Middle section of the fixed TEX header (dds2tex.rs lines 83-112, the
144 bytes between the format-code field and the mip-offset table): the
reserved block, the new-DDS flag, 16 reserved bytes, eight -1 sentinels,
the width repeated, three width groups, 24 reserved bytes. -/
def texMidBytes (w : Int) (f : TexFormat) (is_raw : Bool) : List Nat :=
  TEX_FIXED_UNKN ++
  (i32ToBytes (if isNewDds f then 1 else 0) ++ (List.replicate 16 0 ++
  ((List.replicate 8 (-1 : Int)).flatMap i32ToBytes ++ (i32ToBytes w ++
  (widthGroup w f is_raw ++ (widthGroup w f is_raw ++ (widthGroup w f is_raw ++
  List.replicate 24 0)))))))

/-- Fixed TEX header (184 = 0xB8 bytes) followed by the mip-offset table,
exactly the byte sequence dds2tex.rs emits before the payload. -/
def texFileHeaderBytes (m w h : Int) (f : TexFormat) (is_raw : Bool) :
    List Nat :=
  W_MAGIC_NUMBER_TEX ++
  (i32ToBytes m ++ (i32ToBytes w ++ (i32ToBytes h ++ (i32ToBytes 1 ++
  (i32ToBytes f.code ++ (texMidBytes w f is_raw ++
  mipTableBytes f is_raw m.toNat w h (0xb8 + m * 8)))))))

/-- Complete TEX container written from the given parameters and payload,
as one right-nested concatenation (so that absolute-offset reads of the
parser peel it chunk by chunk). -/
def texFileBytes (m w h : Int) (f : TexFormat) (is_raw : Bool)
    (p : List Nat) : List Nat :=
  W_MAGIC_NUMBER_TEX ++
  (i32ToBytes m ++ (i32ToBytes w ++ (i32ToBytes h ++ (i32ToBytes 1 ++
  (i32ToBytes f.code ++ (texMidBytes w f is_raw ++
  (mipTableBytes f is_raw m.toNat w h (0xb8 + m * 8) ++ p)))))))

/-! ## DDS writer (tex2dds.rs lines 36-69) -/

/-- Linear-size field of the DDS header (tex2dds.rs lines 42-49):
`width*height/2` for the 4-bit class, `width*height*2` for the 16-bit
class, else `width*height`. -/
def ddsLinearSize (f : TexFormat) (w h : Int) : Int :=
  if is4bpp f then Int.tdiv (w * h) 2
  else if is16bpp f then w * h * 2
  else w * h

/-- DDS header bytes (128 bytes, plus the 20-byte DX10 extension when the
format's tag is the generic "DX10" marker), exactly the byte sequence
tex2dds.rs emits before the payload. -/
def ddsHeaderBytes (f : TexFormat) (w h m : Int) : List Nat :=
  W_MAGIC_NUMBER_DDS ++
  (i32ToBytes h ++ (i32ToBytes w ++ (i32ToBytes (ddsLinearSize f w h) ++
  (i32ToBytes 1 ++ (i32ToBytes m ++ (List.replicate 44 0 ++
  (i32ToBytes 32 ++ (i32ToBytes 4 ++ (f.magicBytes ++
  (List.replicate 20 0 ++ (COMPRESS_OPTION ++ (List.replicate 16 0 ++
  (if f.magicBytes = TexFormat.dx10Tag then
    i32ToBytes (dxgiOfTexFormat f).code ++ DX10_FIXED_FLAGS
   else [])))))))))))))

/-- Trailing part of a written DDS container from offset 0x80 on: the DX10
extension (when the tag is generic) followed by the payload. -/
def ddsTailBytes (f : TexFormat) (p : List Nat) : List Nat :=
  if f.magicBytes = TexFormat.dx10Tag then
    i32ToBytes (dxgiOfTexFormat f).code ++ (DX10_FIXED_FLAGS ++ p)
  else p

/-- Complete DDS container written from the given parameters and payload,
as one right-nested concatenation. -/
def ddsFileBytes (f : TexFormat) (w h m : Int) (p : List Nat) : List Nat :=
  W_MAGIC_NUMBER_DDS ++
  (i32ToBytes h ++ (i32ToBytes w ++ (i32ToBytes (ddsLinearSize f w h) ++
  (i32ToBytes 1 ++ (i32ToBytes m ++ (List.replicate 44 0 ++
  (i32ToBytes 32 ++ (i32ToBytes 4 ++ (f.magicBytes ++
  (List.replicate 20 0 ++ (COMPRESS_OPTION ++ (List.replicate 16 0 ++
  ddsTailBytes f p))))))))))))

/-! ## TEX parser (spec/tex.rs, TexInfo::from_reader) -/

/-- Parsed TEX header record (struct `TexInfo`). -/
structure TexInfo where
  magic : Int
  mip_map_count : Int
  width : Int
  height : Int
  format : TexFormat
  offset : Int
deriving DecidableEq, Repr

/-- Parser `TexInfo::from_reader`: magic at 0, mip count / width / height
at 0x14, format code at 0x24 (resolved via the registry, `Unknown` is
rejected), 64-bit payload offset at 0xB8.  Truncated reads surface the
underlying I/O error. -/
def TexInfo.from_reader (s : List Nat) : Except ConvError TexInfo :=
  match readI32 s 0 with
  | none => .error .ioRead
  | some magic =>
    if magic ≠ TEX_MAGIC then .error (.badMagic TEX_MAGIC magic) else
    match readI32 s 0x14, readI32 s 0x18, readI32 s 0x1C with
    | some mip, some w, some h =>
      match readI32 s 0x24 with
      | none => .error .ioRead
      | some code =>
        let format := (TexFormat.fromI32 code).getD TexFormat.DxgiFormatUnknown
        if format = TexFormat.DxgiFormatUnknown then .error .unknownTexFormat else
        match readI64 s 0xB8 with
        | none => .error .ioRead
        | some off => .ok ⟨magic, mip, w, h, format, off⟩
    | _, _, _ => .error .ioRead

/-! ## Transcoder TEX → DDS (tex2dds.rs, convert_to_dds) -/

/-- Converter `convert_to_dds`: parse the TEX header, take the payload
from `info.offset` to the end of the stream, and emit the DDS header
followed by the payload verbatim.  A negative offset, cast to `u64` by the
source's seek, lands past the end of any stream and yields an empty
payload. -/
def convert_to_dds (s : List Nat) : Except ConvError (List Nat) :=
  match TexInfo.from_reader s with
  | .error e => .error e
  | .ok info =>
    let data := if info.offset < 0 then [] else s.drop info.offset.toNat
    .ok (ddsHeaderBytes info.format info.width info.height info.mip_map_count
          ++ data)

/-! ## Transcoder DDS → TEX (dds2tex.rs, convert_to_tex) -/

/-- Resolution of the pixel format of a DDS stream (dds2tex.rs lines
52-65): the four-character tag at 0x54 is resolved provisionally; the
provisional default `Bc7Unorm` triggers a second lookup through the DX10
extension's DXGI code at 0x80. -/
def resolveDdsFormat (s : List Nat) : Except ConvError TexFormat :=
  match readBytes4 s 0x54 with
  | none => .error .ioRead
  | some tag =>
    let format := TexFormat.from_magic tag
    if format = TexFormat.DxgiFormatUnknown then .error .unknownTexFormat else
    if format = TexFormat.DxgiFormatBc7Unorm then
      match readI32 s 0x80 with
      | none => .error .ioRead
      | some code =>
        match DxgiFormat.fromI32 code with
        | none => .error .unknownTexFormat
        | some d => .ok (texFormatOfDxgi d)
    else .ok format

/-- Converter `convert_to_tex`: parse the DDS header fields (magic, flags
bit 3 as the raw flag, height, width, mip count), resolve the format,
take the payload from 0x94 (generic tag, compressed) or 0x80, and emit
the TEX header, regenerated mip-offset table, and payload verbatim. -/
def convert_to_tex (s : List Nat) : Except ConvError (List Nat) :=
  match readI32 s 0 with
  | none => .error .ioRead
  | some magic =>
    if magic ≠ DDS_MAGIC then .error (.badMagic DDS_MAGIC magic) else
    match readI32 s 0x8, readI32 s 0xC, readI32 s 0x10 with
    | some dds_flag, some height, some width =>
      let is_raw : Bool := decide (8 ≤ dds_flag % 16)
      match readI32 s 0x1C with
      | none => .error .ioRead
      | some mipmap_count =>
        match resolveDdsFormat s with
        | .error e => .error e
        | .ok format =>
          let data :=
            if format.magicBytes = TexFormat.dx10Tag ∧ is_raw = false
            then s.drop 0x94
            else s.drop 0x80
          .ok (texFileHeaderBytes mipmap_count width height format is_raw ++ data)
    | _, _, _ => .error .ioRead

/-! ## Helper lemmas: reading fields back out of written streams -/

theorem drop_skip (a s : List Nat) (n k : Nat) (hk : a.length + n = k) :
    (a ++ s).drop k = s.drop n := by
  subst hk
  simp [List.drop_append]

theorem readI32_skip (a s : List Nat) (n k : Nat) (hk : a.length + n = k) :
    readI32 (a ++ s) k = readI32 s n := by
  simp only [readI32, drop_skip a s n k hk]

theorem readI64_skip (a s : List Nat) (n k : Nat) (hk : a.length + n = k) :
    readI64 (a ++ s) k = readI64 s n := by
  simp only [readI64, drop_skip a s n k hk]

theorem readBytes4_skip (a s : List Nat) (n k : Nat) (hk : a.length + n = k) :
    readBytes4 (a ++ s) k = readBytes4 s n := by
  simp only [readBytes4, drop_skip a s n k hk]

theorem readI32_here (v : Int) (r : List Nat)
    (h1 : -(2 ^ 31) ≤ v) (h2 : v < 2 ^ 31) :
    readI32 (i32ToBytes v ++ r) 0 = some v := by
  simp only [readI32, i32ToBytes, List.cons_append, List.nil_append,
    List.drop_zero, decodeI32]
  congr 1
  omega

theorem readI64_mip_here (v : Int) (r : List Nat)
    (h1 : 0 ≤ v) (h2 : v < 2 ^ 31) :
    readI64 (i32ToBytes v ++ (i32ToBytes 0 ++ r)) 0 = some v := by
  simp only [readI64, i32ToBytes, List.cons_append, List.nil_append,
    List.drop_zero, decodeI64]
  congr 1
  omega

theorem readBytes4_magic_here (f : TexFormat) (r : List Nat) :
    readBytes4 (f.magicBytes ++ r) 0 = some f.magicBytes := by
  cases f <;> rfl

theorem i32ToBytes_length (v : Int) : (i32ToBytes v).length = 4 := rfl

theorem widthGroup_length (w : Int) (f : TexFormat) (is_raw : Bool) :
    (widthGroup w f is_raw).length = 12 := by
  unfold widthGroup
  split <;> rfl

theorem texMidBytes_length (w : Int) (f : TexFormat) (is_raw : Bool) :
    (texMidBytes w f is_raw).length = 144 := by
  simp [texMidBytes, TEX_FIXED_UNKN, widthGroup_length, i32ToBytes_length]

theorem mipTableBytes_succ (f : TexFormat) (is_raw : Bool)
    (n : Nat) (cw ch b : Int) :
    mipTableBytes f is_raw (n + 1) cw ch b =
      i32ToBytes b ++ (i32ToBytes 0 ++
        mipTableBytes f is_raw n (max (Int.tdiv cw 2) (minDim is_raw))
          (max (Int.tdiv ch 2) (minDim is_raw)) (b + levelSize f is_raw cw ch)) := by
  simp [mipTableBytes, mipChain]

theorem mipTableBytes_length (f : TexFormat) (is_raw : Bool) :
    ∀ (n : Nat) (cw ch b : Int),
      (mipTableBytes f is_raw n cw ch b).length = 8 * n := by
  intro n
  induction n with
  | zero => intro cw ch b; rfl
  | succ k ih =>
      intro cw ch b
      rw [mipTableBytes_succ]
      simp [ih, i32ToBytes_length]
      omega

theorem texFileHeaderBytes_append (m w h : Int) (f : TexFormat)
    (is_raw : Bool) (p : List Nat) :
    texFileHeaderBytes m w h f is_raw ++ p = texFileBytes m w h f is_raw p := by
  simp [texFileHeaderBytes, texFileBytes, List.append_assoc]

theorem ddsHeaderBytes_append (f : TexFormat) (w h m : Int) (p : List Nat) :
    ddsHeaderBytes f w h m ++ p = ddsFileBytes f w h m p := by
  by_cases hf : f.magicBytes = TexFormat.dx10Tag <;>
    simp [ddsHeaderBytes, ddsFileBytes, ddsTailBytes, hf, List.append_assoc]

theorem magicBytes_length (f : TexFormat) : f.magicBytes.length = 4 := by
  cases f <;> rfl

theorem code_range (f : TexFormat) : -(2 ^ 31) ≤ f.code ∧ f.code < 2 ^ 31 := by
  cases f <;> exact ⟨by decide, by decide⟩

theorem dxgi_code_range (d : DxgiFormat) :
    -(2 ^ 31) ≤ d.code ∧ d.code < 2 ^ 31 := by
  cases d <;> exact ⟨by decide, by decide⟩

theorem fromI32_code (f : TexFormat) : TexFormat.fromI32 f.code = some f := by
  cases f <;> rfl

theorem texFileHeaderBytes_length (m w h : Int) (f : TexFormat) (is_raw : Bool) :
    (texFileHeaderBytes m w h f is_raw).length = 184 + 8 * m.toNat := by
  simp [texFileHeaderBytes, W_MAGIC_NUMBER_TEX, i32ToBytes_length,
    texMidBytes_length, mipTableBytes_length]
  omega

theorem ddsHeaderBytes_length (f : TexFormat) (w h m : Int) :
    (ddsHeaderBytes f w h m).length =
      if f.magicBytes = TexFormat.dx10Tag then 148 else 128 := by
  unfold ddsHeaderBytes
  by_cases hf : f.magicBytes = TexFormat.dx10Tag
  · rw [if_pos hf, if_pos hf]
    simp [W_MAGIC_NUMBER_DDS, i32ToBytes_length, magicBytes_length,
      COMPRESS_OPTION, DX10_FIXED_FLAGS]
  · rw [if_neg hf, if_neg hf]
    simp [W_MAGIC_NUMBER_DDS, i32ToBytes_length, magicBytes_length,
      COMPRESS_OPTION]

/-! ### Field extraction from a written TEX container -/

theorem texFile_magic (m w h : Int) (f : TexFormat) (is_raw : Bool)
    (p : List Nat) : readI32 (texFileBytes m w h f is_raw p) 0 = some TEX_MAGIC :=
  rfl

theorem texFile_mip (m w h : Int) (f : TexFormat) (is_raw : Bool) (p : List Nat)
    (h1 : -(2 ^ 31) ≤ m) (h2 : m < 2 ^ 31) :
    readI32 (texFileBytes m w h f is_raw p) 0x14 = some m := by
  unfold texFileBytes
  rw [readI32_skip W_MAGIC_NUMBER_TEX _ 0 20 rfl]
  exact readI32_here m _ h1 h2

theorem texFile_width (m w h : Int) (f : TexFormat) (is_raw : Bool) (p : List Nat)
    (h1 : -(2 ^ 31) ≤ w) (h2 : w < 2 ^ 31) :
    readI32 (texFileBytes m w h f is_raw p) 0x18 = some w := by
  unfold texFileBytes
  rw [readI32_skip W_MAGIC_NUMBER_TEX _ 4 24 rfl,
    readI32_skip (i32ToBytes m) _ 0 4 rfl]
  exact readI32_here w _ h1 h2

theorem texFile_height (m w h : Int) (f : TexFormat) (is_raw : Bool) (p : List Nat)
    (h1 : -(2 ^ 31) ≤ h) (h2 : h < 2 ^ 31) :
    readI32 (texFileBytes m w h f is_raw p) 0x1C = some h := by
  unfold texFileBytes
  rw [readI32_skip W_MAGIC_NUMBER_TEX _ 8 28 rfl,
    readI32_skip (i32ToBytes m) _ 4 8 rfl,
    readI32_skip (i32ToBytes w) _ 0 4 rfl]
  exact readI32_here h _ h1 h2

theorem texFile_code (m w h : Int) (f : TexFormat) (is_raw : Bool)
    (p : List Nat) :
    readI32 (texFileBytes m w h f is_raw p) 0x24 = some f.code := by
  unfold texFileBytes
  rw [readI32_skip W_MAGIC_NUMBER_TEX _ 16 36 rfl,
    readI32_skip (i32ToBytes m) _ 12 16 rfl,
    readI32_skip (i32ToBytes w) _ 8 12 rfl,
    readI32_skip (i32ToBytes h) _ 4 8 rfl,
    readI32_skip (i32ToBytes 1) _ 0 4 rfl]
  exact readI32_here f.code _ (code_range f).1 (code_range f).2

theorem texFile_offset (m w h : Int) (f : TexFormat) (is_raw : Bool)
    (p : List Nat) (hm : 1 ≤ m) (hm2 : 0xb8 + m * 8 < 2 ^ 31) :
    readI64 (texFileBytes m w h f is_raw p) 0xB8 = some (0xb8 + m * 8) := by
  unfold texFileBytes
  rw [readI64_skip W_MAGIC_NUMBER_TEX _ 164 184 rfl,
    readI64_skip (i32ToBytes m) _ 160 164 rfl,
    readI64_skip (i32ToBytes w) _ 156 160 rfl,
    readI64_skip (i32ToBytes h) _ 152 156 rfl,
    readI64_skip (i32ToBytes 1) _ 148 152 rfl,
    readI64_skip (i32ToBytes f.code) _ 144 148 rfl,
    readI64_skip (texMidBytes w f is_raw) _ 0 144
      (by rw [texMidBytes_length])]
  obtain ⟨nm, hnm⟩ : ∃ nm, m.toNat = nm + 1 := ⟨m.toNat - 1, by omega⟩
  rw [hnm, mipTableBytes_succ]
  simp only [List.append_assoc]
  exact readI64_mip_here _ _ (by omega) (by omega)

theorem texFile_drop_payload (m w h : Int) (f : TexFormat) (is_raw : Bool)
    (p : List Nat) :
    (texFileBytes m w h f is_raw p).drop (184 + 8 * m.toNat) = p := by
  rw [← texFileHeaderBytes_append]
  rw [drop_skip _ _ 0 _ (by rw [texFileHeaderBytes_length]; omega)]
  exact List.drop_zero p

/-! ### Field extraction from a written DDS container -/

theorem ddsFile_magic (f : TexFormat) (w h m : Int) (p : List Nat) :
    readI32 (ddsFileBytes f w h m p) 0 = some DDS_MAGIC :=
  rfl

theorem ddsFile_flags (f : TexFormat) (w h m : Int) (p : List Nat) :
    readI32 (ddsFileBytes f w h m p) 0x8 = some 0x000A1007 :=
  rfl

theorem ddsFile_height (f : TexFormat) (w h m : Int) (p : List Nat)
    (h1 : -(2 ^ 31) ≤ h) (h2 : h < 2 ^ 31) :
    readI32 (ddsFileBytes f w h m p) 0xC = some h := by
  unfold ddsFileBytes
  rw [readI32_skip W_MAGIC_NUMBER_DDS _ 0 12 rfl]
  exact readI32_here h _ h1 h2

theorem ddsFile_width (f : TexFormat) (w h m : Int) (p : List Nat)
    (h1 : -(2 ^ 31) ≤ w) (h2 : w < 2 ^ 31) :
    readI32 (ddsFileBytes f w h m p) 0x10 = some w := by
  unfold ddsFileBytes
  rw [readI32_skip W_MAGIC_NUMBER_DDS _ 4 16 rfl,
    readI32_skip (i32ToBytes h) _ 0 4 rfl]
  exact readI32_here w _ h1 h2

theorem ddsFile_mip (f : TexFormat) (w h m : Int) (p : List Nat)
    (h1 : -(2 ^ 31) ≤ m) (h2 : m < 2 ^ 31) :
    readI32 (ddsFileBytes f w h m p) 0x1C = some m := by
  unfold ddsFileBytes
  rw [readI32_skip W_MAGIC_NUMBER_DDS _ 16 28 rfl,
    readI32_skip (i32ToBytes h) _ 12 16 rfl,
    readI32_skip (i32ToBytes w) _ 8 12 rfl,
    readI32_skip (i32ToBytes (ddsLinearSize f w h)) _ 4 8 rfl,
    readI32_skip (i32ToBytes 1) _ 0 4 rfl]
  exact readI32_here m _ h1 h2

theorem ddsFile_tag (f : TexFormat) (w h m : Int) (p : List Nat) :
    readBytes4 (ddsFileBytes f w h m p) 0x54 = some f.magicBytes := by
  unfold ddsFileBytes
  rw [readBytes4_skip W_MAGIC_NUMBER_DDS _ 72 84 rfl,
    readBytes4_skip (i32ToBytes h) _ 68 72 rfl,
    readBytes4_skip (i32ToBytes w) _ 64 68 rfl,
    readBytes4_skip (i32ToBytes (ddsLinearSize f w h)) _ 60 64 rfl,
    readBytes4_skip (i32ToBytes 1) _ 56 60 rfl,
    readBytes4_skip (i32ToBytes m) _ 52 56 rfl,
    readBytes4_skip (List.replicate 44 0) _ 8 52 rfl,
    readBytes4_skip (i32ToBytes 32) _ 4 8 rfl,
    readBytes4_skip (i32ToBytes 4) _ 0 4 rfl]
  exact readBytes4_magic_here f _

theorem ddsFile_dxgi (f : TexFormat) (w h m : Int) (p : List Nat)
    (hf : f.magicBytes = TexFormat.dx10Tag) :
    readI32 (ddsFileBytes f w h m p) 0x80 = some (dxgiOfTexFormat f).code := by
  unfold ddsFileBytes
  rw [readI32_skip W_MAGIC_NUMBER_DDS _ 116 128 rfl,
    readI32_skip (i32ToBytes h) _ 112 116 rfl,
    readI32_skip (i32ToBytes w) _ 108 112 rfl,
    readI32_skip (i32ToBytes (ddsLinearSize f w h)) _ 104 108 rfl,
    readI32_skip (i32ToBytes 1) _ 100 104 rfl,
    readI32_skip (i32ToBytes m) _ 96 100 rfl,
    readI32_skip (List.replicate 44 0) _ 52 96 rfl,
    readI32_skip (i32ToBytes 32) _ 48 52 rfl,
    readI32_skip (i32ToBytes 4) _ 44 48 rfl,
    readI32_skip f.magicBytes _ 40 44 (by rw [magicBytes_length]),
    readI32_skip (List.replicate 20 0) _ 20 40 rfl,
    readI32_skip COMPRESS_OPTION _ 16 20 rfl,
    readI32_skip (List.replicate 16 0) _ 0 16 rfl]
  unfold ddsTailBytes
  rw [if_pos hf]
  exact readI32_here _ _ (dxgi_code_range _).1 (dxgi_code_range _).2

theorem ddsFile_drop_dx10 (f : TexFormat) (w h m : Int) (p : List Nat)
    (hf : f.magicBytes = TexFormat.dx10Tag) :
    (ddsFileBytes f w h m p).drop 0x94 = p := by
  rw [← ddsHeaderBytes_append]
  rw [drop_skip _ _ 0 _ (by rw [ddsHeaderBytes_length, if_pos hf])]
  exact List.drop_zero p

theorem ddsFile_drop_legacy (f : TexFormat) (w h m : Int) (p : List Nat)
    (hf : ¬ f.magicBytes = TexFormat.dx10Tag) :
    (ddsFileBytes f w h m p).drop 0x80 = p := by
  rw [← ddsHeaderBytes_append]
  rw [drop_skip _ _ 0 _ (by rw [ddsHeaderBytes_length, if_neg hf])]
  exact List.drop_zero p

/-! ### Parsing a canonically written container recovers its parameters -/

theorem from_reader_texFile (m w h : Int) (f : TexFormat) (is_raw : Bool)
    (p : List Nat) (hm : 1 ≤ m) (hm2 : 0xb8 + m * 8 < 2 ^ 31)
    (hw1 : -(2 ^ 31) ≤ w) (hw2 : w < 2 ^ 31)
    (hh1 : -(2 ^ 31) ≤ h) (hh2 : h < 2 ^ 31)
    (hf : f ≠ TexFormat.DxgiFormatUnknown) :
    TexInfo.from_reader (texFileBytes m w h f is_raw p) =
      .ok ⟨TEX_MAGIC, m, w, h, f, 0xb8 + m * 8⟩ := by
  unfold TexInfo.from_reader
  rw [texFile_magic, texFile_mip m w h f is_raw p (by omega) (by omega),
    texFile_width m w h f is_raw p hw1 hw2,
    texFile_height m w h f is_raw p hh1 hh2,
    texFile_code, texFile_offset m w h f is_raw p hm hm2]
  simp [fromI32_code, hf]

theorem resolve_ddsFile (f : TexFormat) (w h m : Int) (p : List Nat)
    (hf : f ≠ TexFormat.DxgiFormatUnknown) :
    resolveDdsFormat (ddsFileBytes f w h m p) = .ok f := by
  cases f with
  | DxgiFormatUnknown => exact absurd rfl hf
  | DxgiFormatBc1Unorm =>
      unfold resolveDdsFormat
      rw [ddsFile_tag]
      rfl
  | DxgiFormatBc4Unorm =>
      unfold resolveDdsFormat
      rw [ddsFile_tag]
      rfl
  | DxgiFormatBc5Unorm =>
      unfold resolveDdsFormat
      rw [ddsFile_tag]
      rfl
  | DxgiFormatR8G8B8A8Unorm =>
      unfold resolveDdsFormat
      rw [ddsFile_tag]
      simp only [TexFormat.magicBytes, TexFormat.from_magic]
      norm_num
      rw [ddsFile_dxgi TexFormat.DxgiFormatR8G8B8A8Unorm w h m p rfl]
      rfl
  | DxgiFormatR8G8B8A8UnormSRGB =>
      unfold resolveDdsFormat
      rw [ddsFile_tag]
      simp only [TexFormat.magicBytes, TexFormat.from_magic]
      norm_num
      rw [ddsFile_dxgi TexFormat.DxgiFormatR8G8B8A8UnormSRGB w h m p rfl]
      rfl
  | DxgiFormatR8G8Unorm =>
      unfold resolveDdsFormat
      rw [ddsFile_tag]
      simp only [TexFormat.magicBytes, TexFormat.from_magic]
      norm_num
      rw [ddsFile_dxgi TexFormat.DxgiFormatR8G8Unorm w h m p rfl]
      rfl
  | DxgiFormatBc1UnormSRGB =>
      unfold resolveDdsFormat
      rw [ddsFile_tag]
      simp only [TexFormat.magicBytes, TexFormat.from_magic]
      norm_num
      rw [ddsFile_dxgi TexFormat.DxgiFormatBc1UnormSRGB w h m p rfl]
      rfl
  | DxgiFormatBc6hUf16 =>
      unfold resolveDdsFormat
      rw [ddsFile_tag]
      simp only [TexFormat.magicBytes, TexFormat.from_magic]
      norm_num
      rw [ddsFile_dxgi TexFormat.DxgiFormatBc6hUf16 w h m p rfl]
      rfl
  | DxgiFormatBc7Unorm =>
      unfold resolveDdsFormat
      rw [ddsFile_tag]
      simp only [TexFormat.magicBytes, TexFormat.from_magic]
      norm_num
      rw [ddsFile_dxgi TexFormat.DxgiFormatBc7Unorm w h m p rfl]
      rfl
  | DxgiFormatBc7UnormSRGB =>
      unfold resolveDdsFormat
      rw [ddsFile_tag]
      simp only [TexFormat.magicBytes, TexFormat.from_magic]
      norm_num
      rw [ddsFile_dxgi TexFormat.DxgiFormatBc7UnormSRGB w h m p rfl]
      rfl

/-! ### Round-trip direction lemmas -/

theorem convert_to_tex_ddsFile (f : TexFormat) (w h m : Int) (p : List Nat)
    (hf : f ≠ TexFormat.DxgiFormatUnknown)
    (hm1 : -(2 ^ 31) ≤ m) (hm2 : m < 2 ^ 31)
    (hw1 : -(2 ^ 31) ≤ w) (hw2 : w < 2 ^ 31)
    (hh1 : -(2 ^ 31) ≤ h) (hh2 : h < 2 ^ 31) :
    convert_to_tex (ddsFileBytes f w h m p) =
      .ok (texFileBytes m w h f false p) := by
  unfold convert_to_tex
  rw [ddsFile_magic, ddsFile_flags, ddsFile_height f w h m p hh1 hh2,
    ddsFile_width f w h m p hw1 hw2, ddsFile_mip f w h m p hm1 hm2,
    resolve_ddsFile f w h m p hf]
  by_cases hf10 : f.magicBytes = TexFormat.dx10Tag
  · simp only [hf10]
    norm_num
    rw [ddsFile_drop_dx10 f w h m p hf10, texFileHeaderBytes_append]
  · simp only [hf10]
    norm_num
    rw [ddsFile_drop_legacy f w h m p hf10, texFileHeaderBytes_append]

theorem convert_to_dds_texFile (m w h : Int) (f : TexFormat) (is_raw : Bool)
    (p : List Nat)
    (hm : 1 ≤ m) (hm2 : 0xb8 + m * 8 < 2 ^ 31)
    (hw1 : -(2 ^ 31) ≤ w) (hw2 : w < 2 ^ 31)
    (hh1 : -(2 ^ 31) ≤ h) (hh2 : h < 2 ^ 31)
    (hf : f ≠ TexFormat.DxgiFormatUnknown) :
    convert_to_dds (texFileBytes m w h f is_raw p) =
      .ok (ddsFileBytes f w h m p) := by
  unfold convert_to_dds
  rw [from_reader_texFile m w h f is_raw p hm hm2 hw1 hw2 hh1 hh2 hf]
  have hneg : ¬ ((0xb8 + m * 8 : Int) < 0) := by omega
  have ht : ((0xb8 + m * 8 : Int)).toNat = 184 + 8 * m.toNat := by omega
  simp only [hneg, if_false, ite_false, ht, texFile_drop_payload,
    ddsHeaderBytes_append]

/-! ## Claim C1: round-trip identity -/

/-- Well-formed DDS input: a canonical DDS container of a supported
format, with mip count and dimensions in `i32` range (1 ≤ mip count, so
that a first mip entry exists, and the regenerated TEX payload offset
0xB8 + 8·mip fits an `i32`). -/
def WellFormedDds (x : List Nat) : Prop :=
  ∃ (f : TexFormat) (w h m : Int) (p : List Nat),
    f ≠ TexFormat.DxgiFormatUnknown ∧ 1 ≤ m ∧ 0xb8 + m * 8 < 2 ^ 31 ∧
    -(2 ^ 31) ≤ w ∧ w < 2 ^ 31 ∧ -(2 ^ 31) ≤ h ∧ h < 2 ^ 31 ∧
    x = ddsFileBytes f w h m p

/-- Well-formed TEX input: a canonical TEX container of a supported
format (written along the compressed, non-raw path), with mip count and
dimensions in `i32` range. -/
def WellFormedTex (y : List Nat) : Prop :=
  ∃ (f : TexFormat) (w h m : Int) (p : List Nat),
    f ≠ TexFormat.DxgiFormatUnknown ∧ 1 ≤ m ∧ 0xb8 + m * 8 < 2 ^ 31 ∧
    -(2 ^ 31) ≤ w ∧ w < 2 ^ 31 ∧ -(2 ^ 31) ≤ h ∧ h < 2 ^ 31 ∧
    y = texFileBytes m w h f false p

/-- C1: for every supported PixelFormat and every well-formed DDS input
`x` and well-formed TEX input `y` of that format, converting one way and
then back is the byte-for-byte identity:
`convert_to_dds (convert_to_tex x) = x` and
`convert_to_tex (convert_to_dds y) = y`. -/
theorem c1_round_trip_identity :
    (∀ x, WellFormedDds x → (convert_to_tex x).bind convert_to_dds = .ok x) ∧
    (∀ y, WellFormedTex y → (convert_to_dds y).bind convert_to_tex = .ok y) := by
  constructor
  · rintro x ⟨f, w, h, m, p, hf, hm, hm2, hw1, hw2, hh1, hh2, rfl⟩
    rw [convert_to_tex_ddsFile f w h m p hf (by omega) (by omega)
      hw1 hw2 hh1 hh2]
    exact convert_to_dds_texFile m w h f false p hm hm2 hw1 hw2 hh1 hh2 hf
  · rintro y ⟨f, w, h, m, p, hf, hm, hm2, hw1, hw2, hh1, hh2, rfl⟩
    rw [convert_to_dds_texFile m w h f false p hm hm2 hw1 hw2 hh1 hh2 hf]
    exact convert_to_tex_ddsFile f w h m p hf (by omega) (by omega)
      hw1 hw2 hh1 hh2

/-- Witness for C1 at a concrete BC1 DDS container (4x4, 1 mip, 3 payload
bytes) and a concrete BC6H TEX container (8x8, 2 mips). -/
theorem c1_round_trip_identity_witness :
    WellFormedDds
      (ddsFileBytes TexFormat.DxgiFormatBc1Unorm 4 4 1 [1, 2, 3]) ∧
    WellFormedTex
      (texFileBytes 2 8 8 TexFormat.DxgiFormatBc6hUf16 false [9, 9]) ∧
    (convert_to_tex
      (ddsFileBytes TexFormat.DxgiFormatBc1Unorm 4 4 1 [1, 2, 3])).bind
        convert_to_dds =
      .ok (ddsFileBytes TexFormat.DxgiFormatBc1Unorm 4 4 1 [1, 2, 3]) ∧
    (convert_to_dds
      (texFileBytes 2 8 8 TexFormat.DxgiFormatBc6hUf16 false [9, 9])).bind
        convert_to_tex =
      .ok (texFileBytes 2 8 8 TexFormat.DxgiFormatBc6hUf16 false [9, 9]) := by
  have hd : WellFormedDds
      (ddsFileBytes TexFormat.DxgiFormatBc1Unorm 4 4 1 [1, 2, 3]) :=
    ⟨TexFormat.DxgiFormatBc1Unorm, 4, 4, 1, [1, 2, 3], by decide, by decide,
      by decide, by decide, by decide, by decide, by decide, rfl⟩
  have ht : WellFormedTex
      (texFileBytes 2 8 8 TexFormat.DxgiFormatBc6hUf16 false [9, 9]) :=
    ⟨TexFormat.DxgiFormatBc6hUf16, 8, 8, 2, [9, 9], by decide, by decide,
      by decide, by decide, by decide, by decide, by decide, rfl⟩
  exact ⟨hd, ht, c1_round_trip_identity.1 _ hd, c1_round_trip_identity.2 _ ht⟩

/-! ## Claim C2: DX10 disambiguation -/

/-- C2: a DDS input whose 4-byte tag at 0x54 is the generic "DX10" marker
and whose DX10-extension DXGI code at 0x80 is the BC6H-uf16 code resolves
to BC6H-uf16 (not the provisional BC7-unorm default), and, when the input
is not raw, `convert_to_tex` takes the payload from offset 0x94 (not
0x80). -/
theorem c2_dx10_disambiguation (s : List Nat) (flag hh ww m : Int)
    (h0 : readI32 s 0 = some DDS_MAGIC)
    (hflag : readI32 s 0x8 = some flag)
    (hraw : flag % 16 < 8)
    (hh_ : readI32 s 0xC = some hh)
    (hw_ : readI32 s 0x10 = some ww)
    (hm_ : readI32 s 0x1C = some m)
    (htag : readBytes4 s 0x54 = some TexFormat.dx10Tag)
    (hcode : readI32 s 0x80 = some DxgiFormat.Bc6hUf16.code) :
    resolveDdsFormat s = .ok TexFormat.DxgiFormatBc6hUf16 ∧
    convert_to_tex s =
      .ok (texFileHeaderBytes m ww hh TexFormat.DxgiFormatBc6hUf16 false ++
        s.drop 0x94) := by
  have hres : resolveDdsFormat s = .ok TexFormat.DxgiFormatBc6hUf16 := by
    unfold resolveDdsFormat
    rw [htag]
    simp only [TexFormat.dx10Tag, TexFormat.from_magic]
    norm_num
    rw [hcode]
    rfl
  refine ⟨hres, ?_⟩
  unfold convert_to_tex
  rw [h0, hflag, hh_, hw_, hm_, hres]
  have hb : decide (8 ≤ flag % 16) = false := by
    simp only [decide_eq_false_iff_not]
    omega
  simp only [hb]
  norm_num
  intro hcontra
  exact absurd rfl hcontra

/-- Witness for C2 at a concrete BC6H DDS container. -/
theorem c2_dx10_disambiguation_witness :
    resolveDdsFormat
      (ddsFileBytes TexFormat.DxgiFormatBc6hUf16 4 4 1 [5, 6]) =
      .ok TexFormat.DxgiFormatBc6hUf16 ∧
    convert_to_tex (ddsFileBytes TexFormat.DxgiFormatBc6hUf16 4 4 1 [5, 6]) =
      .ok (texFileHeaderBytes 1 4 4 TexFormat.DxgiFormatBc6hUf16 false ++
        (ddsFileBytes TexFormat.DxgiFormatBc6hUf16 4 4 1 [5, 6]).drop 0x94) :=
  c2_dx10_disambiguation _ 0x000A1007 4 4 1 (by rfl) (by rfl) (by decide)
    (by rfl) (by rfl) (by rfl) (by rfl) (by rfl)

/-! ## Claims C3 / C6: the mip-offset table -/

/-- Dimension value the mip loop uses at level `i`: the input dimension at
level 0, and afterwards the previous value halved (truncating division)
and clamped to the floor. -/
def dimAt (is_raw : Bool) (d : Int) : Nat → Int
  | 0 => d
  | i + 1 => max (Int.tdiv (dimAt is_raw d i) 2) (minDim is_raw)

/-- Dimension sequence the C3 claim sentence describes: halved between
levels, with no clamping. -/
def specHalvedDim (d : Int) : Nat → Int
  | 0 => d
  | i + 1 => Int.tdiv (specHalvedDim d i) 2

theorem dimAt_shift (is_raw : Bool) (d : Int) :
    ∀ i, dimAt is_raw (max (Int.tdiv d 2) (minDim is_raw)) i =
      dimAt is_raw d (i + 1) := by
  intro i
  induction i with
  | zero => rfl
  | succ k ih =>
      rw [dimAt, ih]
      rfl

theorem mipChain_length (f : TexFormat) (is_raw : Bool) :
    ∀ (n : Nat) (cw ch b : Int), (mipChain f is_raw n cw ch b).length = n := by
  intro n
  induction n with
  | zero => intro cw ch b; rfl
  | succ k ih => intro cw ch b; rw [mipChain]; simp [ih]

theorem mipChain_sizes (f : TexFormat) (is_raw : Bool) :
    ∀ (n : Nat) (cw ch b : Int),
      (mipChain f is_raw n cw ch b).map Prod.snd =
        (List.range n).map
          (fun i => levelSize f is_raw (dimAt is_raw cw i) (dimAt is_raw ch i)) := by
  intro n
  induction n with
  | zero => intro cw ch b; rfl
  | succ k ih =>
      intro cw ch b
      rw [mipChain, List.range_succ_eq_map]
      simp only [List.map_cons, List.map_map, ih]
      refine congrArg₂ List.cons rfl ?_
      refine List.map_congr_left ?_
      intro i _
      simp only [Function.comp_apply, dimAt_shift]

theorem levelSize_nonneg (f : TexFormat) (is_raw : Bool) (cw ch : Int)
    (h1 : 0 ≤ cw) (h2 : 0 ≤ ch) : 0 ≤ levelSize f is_raw cw ch := by
  unfold levelSize
  have hp : 0 ≤ cw * ch := Int.mul_nonneg h1 h2
  split
  · exact Int.tdiv_nonneg hp (by decide)
  · split
    · positivity
    · split
      · positivity
      · exact hp

theorem levelSize_pos (f : TexFormat) (is_raw : Bool) (cw ch : Int)
    (_h1 : 0 < cw) (_h2 : 0 < ch) (h3 : 2 ≤ cw * ch) :
    0 < levelSize f is_raw cw ch := by
  unfold levelSize
  split
  · rw [Int.tdiv_eq_ediv (by omega) (by decide)]
    omega
  · split
    · nlinarith
    · split
      · nlinarith
      · omega

theorem mipChain_base_lower (f : TexFormat) (is_raw : Bool) :
    ∀ (n : Nat) (cw ch b : Int), 0 < cw → 0 < ch →
      ∀ x ∈ (mipChain f is_raw n cw ch b).map Prod.fst, b ≤ x := by
  intro n
  induction n with
  | zero => intro cw ch b _ _ x hx; simp [mipChain] at hx
  | succ k ih =>
      intro cw ch b hcw hch x hx
      rw [mipChain] at hx
      simp only [List.map_cons, List.mem_cons] at hx
      rcases hx with rfl | hx
      · exact le_refl _
      · have hfloor : (2 : Int) ≤ minDim is_raw := by
          unfold minDim; split <;> decide
        have h1 : b + levelSize f is_raw cw ch ≤ x :=
          ih _ _ _ (by omega) (by omega) x hx
        have h2 : 0 ≤ levelSize f is_raw cw ch :=
          levelSize_nonneg f is_raw cw ch (by omega) (by omega)
        omega

theorem mipChain_bases_pairwise (f : TexFormat) (is_raw : Bool) :
    ∀ (n : Nat) (cw ch b : Int), 0 < cw → 0 < ch → 2 ≤ cw * ch →
      ((mipChain f is_raw n cw ch b).map Prod.fst).Pairwise (· < ·) := by
  intro n
  induction n with
  | zero => intro cw ch b _ _ _; simp [mipChain]
  | succ k ih =>
      intro cw ch b hcw hch hprod
      have hfloor : (2 : Int) ≤ minDim is_raw := by
        unfold minDim; split <;> decide
      have hcw' : 0 < max (Int.tdiv cw 2) (minDim is_raw) := by
        have := le_max_right (Int.tdiv cw 2) (minDim is_raw); omega
      have hch' : 0 < max (Int.tdiv ch 2) (minDim is_raw) := by
        have := le_max_right (Int.tdiv ch 2) (minDim is_raw); omega
      have hsz : 0 < levelSize f is_raw cw ch :=
        levelSize_pos f is_raw cw ch hcw hch hprod
      rw [mipChain]
      simp only [List.map_cons]
      refine List.pairwise_cons.2 ⟨?_, ?_⟩
      · intro x hx
        have hlow := mipChain_base_lower f is_raw k _ _
          (b + levelSize f is_raw cw ch) hcw' hch' x hx
        omega
      · exact ih _ _ _ hcw' hch' (by nlinarith [le_max_right (Int.tdiv cw 2) (minDim is_raw), le_max_right (Int.tdiv ch 2) (minDim is_raw)])

/-- C3 counterexample: the claim, as stated, is false.  At width 8,
height 8, mip count 4, non-raw 4-bit class, the byte sizes the code
computes are [32, 8, 8, 8] (the dimensions clamp at the floor 4), not the
sizes obtained by pure halving of the dimensions between levels; and at
width 1, height 1, mip count 2, 4-bit class, the first level's size is
1*1/2 = 0, so the two base offsets coincide and are not strictly
increasing. -/
theorem c3_mip_offsets_counterexample :
    ((mipChain TexFormat.DxgiFormatBc1Unorm false 4 8 8 (0xb8 + 4 * 8)).map
        Prod.snd ≠
      (List.range 4).map (fun i =>
        levelSize TexFormat.DxgiFormatBc1Unorm false (specHalvedDim 8 i)
          (specHalvedDim 8 i))) ∧
    ¬ ((mipChain TexFormat.DxgiFormatBc1Unorm false 2 1 1
        (0xb8 + 2 * 8)).map Prod.fst).Pairwise (· < ·) := by
  decide

/-- C3 (amended): the mip-offset table has one entry per mip level; the
per-level byte size follows the storage-class formula applied to the
current dimensions, which are halved and then clamped to the floor (2 if
raw else 4) between levels; the first base offset is 0xB8 + mip_count*8;
and the base offsets are strictly increasing whenever width*height ≥ 2
(for width = height = 1 the 4-bit class computes a first byte size of 0
and repeats the first offset). -/
theorem c3_mip_offsets (f : TexFormat) (is_raw : Bool) (n : Nat) (w h : Int)
    (hn : 1 ≤ n) (hw : 0 < w) (hh : 0 < h) :
    (mipChain f is_raw n w h (0xb8 + (n : Int) * 8)).length = n ∧
    (mipChain f is_raw n w h (0xb8 + (n : Int) * 8)).map Prod.snd =
      (List.range n).map
        (fun i => levelSize f is_raw (dimAt is_raw w i) (dimAt is_raw h i)) ∧
    ((mipChain f is_raw n w h (0xb8 + (n : Int) * 8)).map Prod.fst).head? =
      some (0xb8 + (n : Int) * 8) ∧
    (2 ≤ w * h →
      ((mipChain f is_raw n w h (0xb8 + (n : Int) * 8)).map
        Prod.fst).Pairwise (· < ·)) := by
  refine ⟨mipChain_length f is_raw n w h _, mipChain_sizes f is_raw n w h _,
    ?_, fun hp => mipChain_bases_pairwise f is_raw n w h _ hw hh hp⟩
  obtain ⟨k, rfl⟩ : ∃ k, n = k + 1 := ⟨n - 1, by omega⟩
  rw [mipChain]
  rfl

/-- Witness for C3 at the claim's own instance: width 128, height 128,
mip count 4, 4-bit class, non-raw; the byte sizes are 8192, 2048, 512,
128 and the base offsets start at 0xB8 + 32. -/
theorem c3_mip_offsets_witness :
    (1 ≤ 4 ∧ (0 : Int) < 128) ∧
    ((mipChain TexFormat.DxgiFormatBc1Unorm false 4 128 128
        (0xb8 + (4 : Int) * 8)).length = 4 ∧
      ((mipChain TexFormat.DxgiFormatBc1Unorm false 4 128 128
        (0xb8 + (4 : Int) * 8)).map Prod.fst).Pairwise (· < ·)) ∧
    (mipChain TexFormat.DxgiFormatBc1Unorm false 4 128 128
        (0xb8 + (4 : Int) * 8)).map Prod.snd =
      [128 * 128 / 2, 64 * 64 / 2, 32 * 32 / 2, 16 * 16 / 2] := by
  have h := c3_mip_offsets TexFormat.DxgiFormatBc1Unorm false 4 128 128
    (by decide) (by decide) (by decide)
  exact ⟨⟨by decide, by decide⟩, ⟨h.1, h.2.2.2 (by decide)⟩, by decide⟩

/-- C6 counterexample: the claim's clause that for every level of every
computation the dimensions used are at least the floor is false: the
first level uses the input dimensions unclamped, so at width = height =
2, non-raw (floor 4), the level-0 byte size in the 4-bit class is
2*2/2 = 2, computed from a dimension of 2 < 4. -/
theorem c6_floor_clamp_counterexample :
    (mipChain TexFormat.DxgiFormatBc1Unorm false 1 2 2 0xc0).map Prod.snd =
      [2] ∧
    ¬ (minDim false ≤ dimAt false 2 0) := by
  decide

/-- C6 (amended): after each halving the current width and height are
clamped to a floor of 2 when the surface is raw and 4 otherwise, so every
level after the first uses dimensions at least the floor (the first level
uses the input dimensions unclamped); for width = height = 8 non-raw,
after 1, 2 and 3 halvings the dimension is 4, never reaching 1 or 0; and
the byte sizes of the mip chain are exactly the storage-class formula
applied to these clamped dimension sequences. -/
theorem c6_floor_clamp :
    (∀ (is_raw : Bool) (d : Int) (i : Nat), 1 ≤ i →
      minDim is_raw ≤ dimAt is_raw d i) ∧
    (dimAt false 8 1 = 4 ∧ dimAt false 8 2 = 4 ∧ dimAt false 8 3 = 4) ∧
    (∀ (f : TexFormat) (is_raw : Bool) (n : Nat) (w h b : Int),
      (mipChain f is_raw n w h b).map Prod.snd =
        (List.range n).map
          (fun i => levelSize f is_raw (dimAt is_raw w i) (dimAt is_raw h i))) := by
  refine ⟨?_, by decide, fun f is_raw n w h b => mipChain_sizes f is_raw n w h b⟩
  intro is_raw d i hi
  match i, hi with
  | (k + 1), _ => exact le_max_right _ _

/-- Witness for C6: at level 3 of a non-raw computation started from
dimension 2, the dimension used is at least the floor 4. -/
theorem c6_floor_clamp_witness :
    1 ≤ 3 ∧ minDim false ≤ dimAt false 2 3 :=
  ⟨by decide, c6_floor_clamp.1 false 2 3 (by decide)⟩

/-! ## Claim C4: magic validation -/

/-- C4: an input stream whose leading 4 bytes decode to a value other
than the expected magic fails with `BadMagic` carrying exactly the
expected magic value and the actual value read, for the TEX parser
(`TexInfo::from_reader`) and the DDS parser (`convert_to_tex`)
respectively. -/
theorem c4_bad_magic :
    (∀ (s : List Nat) (v : Int), readI32 s 0 = some v → v ≠ TEX_MAGIC →
      TexInfo.from_reader s = .error (.badMagic TEX_MAGIC v)) ∧
    (∀ (s : List Nat) (v : Int), readI32 s 0 = some v → v ≠ DDS_MAGIC →
      convert_to_tex s = .error (.badMagic DDS_MAGIC v)) := by
  constructor
  · intro s v hv hne
    unfold TexInfo.from_reader
    rw [hv]
    simp [hne]
  · intro s v hv hne
    unfold convert_to_tex
    rw [hv]
    simp [hne]

/-- Witness for C4 at concrete corrupted streams. -/
theorem c4_bad_magic_witness :
    TexInfo.from_reader [0, 0, 0, 0] = .error (.badMagic TEX_MAGIC 0) ∧
    convert_to_tex [1, 0, 0, 0] = .error (.badMagic DDS_MAGIC 1) :=
  ⟨c4_bad_magic.1 [0, 0, 0, 0] 0 (by rfl) (by decide),
   c4_bad_magic.2 [1, 0, 0, 0] 1 (by rfl) (by decide)⟩

/-! ## Inversion lemmas: the shape of any successful conversion -/

theorem resolveDdsFormat_ne_unknown (s : List Nat) (f : TexFormat)
    (h : resolveDdsFormat s = .ok f) : f ≠ TexFormat.DxgiFormatUnknown := by
  unfold resolveDdsFormat at h
  cases htag : readBytes4 s 0x54 with
  | none => rw [htag] at h; exact absurd h (by simp)
  | some tag =>
      rw [htag] at h
      simp only at h
      by_cases hu : TexFormat.from_magic tag = TexFormat.DxgiFormatUnknown
      · rw [if_pos hu] at h; exact absurd h (by simp)
      · rw [if_neg hu] at h
        by_cases hb : TexFormat.from_magic tag = TexFormat.DxgiFormatBc7Unorm
        · rw [if_pos hb] at h
          cases hcode : readI32 s 0x80 with
          | none => rw [hcode] at h; exact absurd h (by simp)
          | some code =>
              rw [hcode] at h
              simp only at h
              cases hd : DxgiFormat.fromI32 code with
              | none => rw [hd] at h; exact absurd h (by simp)
              | some d =>
                  rw [hd] at h
                  simp only [Except.ok.injEq] at h
                  subst h
                  cases d <;> simp [texFormatOfDxgi]
        · rw [if_neg hb] at h
          simp only [Except.ok.injEq] at h
          subst h
          exact hu

theorem convert_to_dds_shape (s t : List Nat)
    (h : convert_to_dds s = .ok t) :
    ∃ info, TexInfo.from_reader s = .ok info ∧
      t = ddsHeaderBytes info.format info.width info.height
            info.mip_map_count ++
          (if info.offset < 0 then [] else s.drop info.offset.toNat) := by
  unfold convert_to_dds at h
  cases hres : TexInfo.from_reader s with
  | error e => rw [hres] at h; exact absurd h (by simp)
  | ok info =>
      rw [hres] at h
      simp only [Except.ok.injEq] at h
      exact ⟨info, rfl, h.symm⟩

theorem convert_to_tex_shape (s t : List Nat)
    (h : convert_to_tex s = .ok t) :
    ∃ (flag hh ww m : Int) (f : TexFormat),
      readI32 s 0 = some DDS_MAGIC ∧
      readI32 s 0x8 = some flag ∧
      readI32 s 0xC = some hh ∧
      readI32 s 0x10 = some ww ∧
      readI32 s 0x1C = some m ∧
      resolveDdsFormat s = .ok f ∧
      t = texFileHeaderBytes m ww hh f (decide (8 ≤ flag % 16)) ++
        (if f.magicBytes = TexFormat.dx10Tag ∧
            decide (8 ≤ flag % 16) = false
         then s.drop 0x94 else s.drop 0x80) := by
  unfold convert_to_tex at h
  cases h0 : readI32 s 0 with
  | none => rw [h0] at h; exact absurd h (by simp)
  | some magic =>
      rw [h0] at h
      simp only at h
      by_cases hmg : magic ≠ DDS_MAGIC
      · rw [if_pos hmg] at h; exact absurd h (by simp)
      · rw [if_neg hmg] at h
        push_neg at hmg
        subst hmg
        cases h1 : readI32 s 0x8 with
        | none => rw [h1] at h; exact absurd h (by simp)
        | some flag =>
            cases h2 : readI32 s 0xC with
            | none => rw [h1, h2] at h; exact absurd h (by simp)
            | some hh =>
                cases h3 : readI32 s 0x10 with
                | none => rw [h1, h2, h3] at h; exact absurd h (by simp)
                | some ww =>
                    rw [h1, h2, h3] at h
                    simp only at h
                    cases h4 : readI32 s 0x1C with
                    | none => rw [h4] at h; exact absurd h (by simp)
                    | some m =>
                        rw [h4] at h
                        simp only at h
                        cases h5 : resolveDdsFormat s with
                        | error e =>
                            rw [h5] at h; exact absurd h (by simp)
                        | ok f =>
                            rw [h5] at h
                            simp only [Except.ok.injEq] at h
                            exact ⟨flag, hh, ww, m, f, rfl, rfl, rfl, rfl,
                              rfl, rfl, h.symm⟩

/-! ## Claim C5: payload pass-through -/

/-- C5: for every successful conversion in either direction, the output
is exactly a header followed by the input bytes from the payload offset
to end of stream, copied verbatim: `convert_to_dds` emits the DDS header
and then the input from `info.offset` on; `convert_to_tex` emits the TEX
header (with the regenerated mip table) and then the input from 0x94
(generic tag, compressed) or 0x80 on.  Neither converter re-encodes or
alters payload content. -/
theorem c5_payload_pass_through :
    (∀ s t, convert_to_dds s = .ok t →
      ∃ info, TexInfo.from_reader s = .ok info ∧
        t = ddsHeaderBytes info.format info.width info.height
              info.mip_map_count ++
            (if info.offset < 0 then [] else s.drop info.offset.toNat)) ∧
    (∀ s t, convert_to_tex s = .ok t →
      ∃ (flag hh ww m : Int) (f : TexFormat),
        resolveDdsFormat s = .ok f ∧
        readI32 s 0x8 = some flag ∧
        t = texFileHeaderBytes m ww hh f (decide (8 ≤ flag % 16)) ++
          (if f.magicBytes = TexFormat.dx10Tag ∧
              decide (8 ≤ flag % 16) = false
           then s.drop 0x94 else s.drop 0x80)) := by
  constructor
  · exact convert_to_dds_shape
  · intro s t h
    obtain ⟨flag, hh, ww, m, f, _, h1, _, _, _, hres, ht⟩ :=
      convert_to_tex_shape s t h
    exact ⟨flag, hh, ww, m, f, hres, h1, ht⟩

set_option maxRecDepth 8000 in
/-- Witness for C5 at concrete containers in both directions. -/
theorem c5_payload_pass_through_witness :
    (convert_to_dds
        (texFileBytes 1 4 4 TexFormat.DxgiFormatBc5Unorm false [1, 2]) =
      .ok (ddsFileBytes TexFormat.DxgiFormatBc5Unorm 4 4 1 [1, 2]) ∧
      ∃ info,
        TexInfo.from_reader
          (texFileBytes 1 4 4 TexFormat.DxgiFormatBc5Unorm false [1, 2]) =
          .ok info ∧
        ddsFileBytes TexFormat.DxgiFormatBc5Unorm 4 4 1 [1, 2] =
          ddsHeaderBytes info.format info.width info.height
              info.mip_map_count ++
            (if info.offset < 0 then []
             else (texFileBytes 1 4 4 TexFormat.DxgiFormatBc5Unorm false
                [1, 2]).drop info.offset.toNat)) ∧
    (convert_to_tex
        (ddsFileBytes TexFormat.DxgiFormatBc5Unorm 4 4 1 [1, 2]) =
      .ok (texFileBytes 1 4 4 TexFormat.DxgiFormatBc5Unorm false [1, 2]) ∧
      ∃ (flag hh ww m : Int) (f : TexFormat),
        resolveDdsFormat
          (ddsFileBytes TexFormat.DxgiFormatBc5Unorm 4 4 1 [1, 2]) = .ok f ∧
        readI32 (ddsFileBytes TexFormat.DxgiFormatBc5Unorm 4 4 1 [1, 2]) 0x8 =
          some flag ∧
        texFileBytes 1 4 4 TexFormat.DxgiFormatBc5Unorm false [1, 2] =
          texFileHeaderBytes m ww hh f (decide (8 ≤ flag % 16)) ++
            (if f.magicBytes = TexFormat.dx10Tag ∧
                decide (8 ≤ flag % 16) = false
             then (ddsFileBytes TexFormat.DxgiFormatBc5Unorm 4 4 1
                [1, 2]).drop 0x94
             else (ddsFileBytes TexFormat.DxgiFormatBc5Unorm 4 4 1
                [1, 2]).drop 0x80)) := by
  refine ⟨⟨by rfl, ?_⟩, ⟨by rfl, ?_⟩⟩
  · exact c5_payload_pass_through.1 _ _ (by rfl)
  · exact c5_payload_pass_through.2 _ _ (by rfl)

/-! ## Claim C7: unknown format rejection -/

/-- C7: a TEX input whose format-code field at offset 0x24 holds a value
outside the registry makes `TexInfo::from_reader` fail with
`UnknownTexFormat`, and `convert_to_dds` then yields that error and no
output bytes (in the Rust signature `Result<Vec<u8>>` the error carries
no buffer, so a failed conversion produces nothing). -/
theorem c7_unknown_format (s : List Nat) (mip w h c : Int)
    (h0 : readI32 s 0 = some TEX_MAGIC)
    (h14 : readI32 s 0x14 = some mip)
    (h18 : readI32 s 0x18 = some w)
    (h1c : readI32 s 0x1C = some h)
    (h24 : readI32 s 0x24 = some c)
    (hc : TexFormat.fromI32 c = none) :
    TexInfo.from_reader s = .error .unknownTexFormat ∧
    convert_to_dds s = .error .unknownTexFormat := by
  have hfr : TexInfo.from_reader s = .error .unknownTexFormat := by
    unfold TexInfo.from_reader
    rw [h0, h14, h18, h1c, h24]
    simp [hc]
  refine ⟨hfr, ?_⟩
  unfold convert_to_dds
  rw [hfr]

/-- Witness for C7 at a concrete TEX stream carrying format code 999. -/
theorem c7_unknown_format_witness :
    TexInfo.from_reader
      ([0x54, 0x45, 0x58, 0x00] ++ (List.replicate 16 0 ++ (i32ToBytes 1 ++
        (i32ToBytes 4 ++ (i32ToBytes 4 ++ (i32ToBytes 1 ++
          i32ToBytes 999)))))) = .error .unknownTexFormat ∧
    convert_to_dds
      ([0x54, 0x45, 0x58, 0x00] ++ (List.replicate 16 0 ++ (i32ToBytes 1 ++
        (i32ToBytes 4 ++ (i32ToBytes 4 ++ (i32ToBytes 1 ++
          i32ToBytes 999)))))) = .error .unknownTexFormat :=
  c7_unknown_format _ 1 4 4 999 (by rfl) (by rfl) (by rfl) (by rfl) (by rfl)
    (by rfl)

/-! ## Claim C8: the parsed-header invariant -/

/-- C8 counterexample: the claim is false as stated.  A TEX stream with a
valid magic and a registered format code but mip count 0 and width and
height 0 parses successfully, so a record returned by
`TexInfo::from_reader` need not satisfy mip count ≥ 1 or width, height
> 0 — the parser never validates those fields. -/
theorem c8_header_invariant_counterexample :
    ∃ info,
      TexInfo.from_reader
        (texFileBytes 0 0 0 TexFormat.DxgiFormatBc1Unorm false
          (List.replicate 8 0)) = .ok info ∧
      ¬ (1 ≤ info.mip_map_count ∧ 0 < info.width ∧ 0 < info.height) :=
  ⟨⟨TEX_MAGIC, 0, 0, 0, TexFormat.DxgiFormatBc1Unorm, 0⟩, by rfl, by decide⟩

/-- C8 (amended): what `TexInfo::from_reader` does enforce on every
record it returns: the magic equals the fixed TEX signature and the
format is a registered one (not Unknown); mip count, width and height are
read unchecked and may be zero or negative. -/
theorem c8_header_invariant (s : List Nat) (info : TexInfo)
    (h : TexInfo.from_reader s = .ok info) :
    info.magic = TEX_MAGIC ∧ info.format ≠ TexFormat.DxgiFormatUnknown := by
  unfold TexInfo.from_reader at h
  cases h0 : readI32 s 0 with
  | none => rw [h0] at h; exact absurd h (by simp)
  | some magic =>
      rw [h0] at h
      simp only at h
      by_cases hmg : magic ≠ TEX_MAGIC
      · rw [if_pos hmg] at h; exact absurd h (by simp)
      · rw [if_neg hmg] at h
        push_neg at hmg
        cases h14 : readI32 s 0x14 with
        | none => rw [h14] at h; exact absurd h (by simp)
        | some mip =>
            cases h18 : readI32 s 0x18 with
            | none => rw [h14, h18] at h; exact absurd h (by simp)
            | some w =>
                cases h1c : readI32 s 0x1C with
                | none => rw [h14, h18, h1c] at h; exact absurd h (by simp)
                | some hh =>
                    rw [h14, h18, h1c] at h
                    simp only at h
                    cases h24 : readI32 s 0x24 with
                    | none => rw [h24] at h; exact absurd h (by simp)
                    | some c =>
                        rw [h24] at h
                        simp only at h
                        by_cases hu :
                          (TexFormat.fromI32 c).getD
                            TexFormat.DxgiFormatUnknown =
                            TexFormat.DxgiFormatUnknown
                        · rw [if_pos hu] at h; exact absurd h (by simp)
                        · rw [if_neg hu] at h
                          cases hb8 : readI64 s 0xB8 with
                          | none => rw [hb8] at h; exact absurd h (by simp)
                          | some off =>
                              rw [hb8] at h
                              simp only [Except.ok.injEq] at h
                              subst h
                              exact ⟨hmg, hu⟩

set_option maxRecDepth 8000 in
/-- Witness for C8 at a concrete well-formed TEX container. -/
theorem c8_header_invariant_witness :
    TexInfo.from_reader
      (texFileBytes 1 4 4 TexFormat.DxgiFormatBc1Unorm false
        (List.replicate 8 7)) =
      .ok ⟨TEX_MAGIC, 1, 4, 4, TexFormat.DxgiFormatBc1Unorm, 0xc0⟩ ∧
    (TEX_MAGIC = TEX_MAGIC ∧
      TexFormat.DxgiFormatBc1Unorm ≠ TexFormat.DxgiFormatUnknown) :=
  ⟨by rfl,
    c8_header_invariant
      (texFileBytes 1 4 4 TexFormat.DxgiFormatBc1Unorm false
        (List.replicate 8 7))
      ⟨TEX_MAGIC, 1, 4, 4, TexFormat.DxgiFormatBc1Unorm, 0xc0⟩ (by rfl)⟩

/-! ## Claim C9: structure and re-parsability of written TEX output -/

/-- C9: every output of `convert_to_tex` consists of the fixed 0xB8-byte
header, the 8·mip-byte mip table, and the payload, so the payload begins
at byte 0xB8 + 8·mip_count; and — provided a first mip entry exists
(mip count ≥ 1) and the parsed fields lie in `i32` range, which holds for
every genuine byte stream — the 64-bit little-endian value at offset 0xB8
of the written file equals that payload offset (the first entry's base
offset followed by its zero word), and `TexInfo::from_reader` applied to
the written bytes recovers exactly the mip count, width, height, format
and payload offset that were written. -/
theorem c9_written_tex_readback (s t : List Nat)
    (h : convert_to_tex s = .ok t) :
    ∃ (flag hh ww m : Int) (f : TexFormat) (p : List Nat),
      t = texFileBytes m ww hh f (decide (8 ≤ flag % 16)) p ∧
      t.length = (184 + 8 * m.toNat) + p.length ∧
      (1 ≤ m → 0xb8 + m * 8 < 2 ^ 31 →
        -(2 ^ 31) ≤ ww → ww < 2 ^ 31 → -(2 ^ 31) ≤ hh → hh < 2 ^ 31 →
        readI64 t 0xB8 = some (0xb8 + m * 8) ∧
        TexInfo.from_reader t =
          .ok ⟨TEX_MAGIC, m, ww, hh, f, 0xb8 + m * 8⟩ ∧
        t.drop (184 + 8 * m.toNat) = p) := by
  obtain ⟨flag, hh, ww, m, f, _, _, _, _, _, hres, ht⟩ :=
    convert_to_tex_shape s t h
  have hf : f ≠ TexFormat.DxgiFormatUnknown :=
    resolveDdsFormat_ne_unknown s f hres
  refine ⟨flag, hh, ww, m, f,
    (if f.magicBytes = TexFormat.dx10Tag ∧ decide (8 ≤ flag % 16) = false
     then s.drop 0x94 else s.drop 0x80), ?_, ?_, ?_⟩
  · rw [ht, texFileHeaderBytes_append]
  · rw [ht, List.length_append, texFileHeaderBytes_length]
  · intro hm hm2 hw1 hw2 hh1 hh2
    rw [ht, texFileHeaderBytes_append]
    exact ⟨texFile_offset m ww hh f _ _ hm hm2,
      from_reader_texFile m ww hh f _ _ hm hm2 hw1 hw2 hh1 hh2 hf,
      texFile_drop_payload m ww hh f _ _⟩

set_option maxRecDepth 8000 in
/-- Witness for C9 at a concrete BC1 DDS input. -/
theorem c9_written_tex_readback_witness :
    convert_to_tex (ddsFileBytes TexFormat.DxgiFormatBc1Unorm 4 4 1
        [1, 2, 3]) =
      .ok (texFileBytes 1 4 4 TexFormat.DxgiFormatBc1Unorm false
        [1, 2, 3]) ∧
    (∃ (flag hh ww m : Int) (f : TexFormat) (p : List Nat),
      texFileBytes 1 4 4 TexFormat.DxgiFormatBc1Unorm false [1, 2, 3] =
        texFileBytes m ww hh f (decide (8 ≤ flag % 16)) p ∧
      (texFileBytes 1 4 4 TexFormat.DxgiFormatBc1Unorm false
          [1, 2, 3]).length = (184 + 8 * m.toNat) + p.length ∧
      (1 ≤ m → 0xb8 + m * 8 < 2 ^ 31 →
        -(2 ^ 31) ≤ ww → ww < 2 ^ 31 → -(2 ^ 31) ≤ hh → hh < 2 ^ 31 →
        readI64 (texFileBytes 1 4 4 TexFormat.DxgiFormatBc1Unorm false
          [1, 2, 3]) 0xB8 = some (0xb8 + m * 8) ∧
        TexInfo.from_reader (texFileBytes 1 4 4
            TexFormat.DxgiFormatBc1Unorm false [1, 2, 3]) =
          .ok ⟨TEX_MAGIC, m, ww, hh, f, 0xb8 + m * 8⟩ ∧
        (texFileBytes 1 4 4 TexFormat.DxgiFormatBc1Unorm false
          [1, 2, 3]).drop (184 + 8 * m.toNat) = p)) :=
  ⟨by rfl,
    c9_written_tex_readback
      (ddsFileBytes TexFormat.DxgiFormatBc1Unorm 4 4 1 [1, 2, 3])
      (texFileBytes 1 4 4 TexFormat.DxgiFormatBc1Unorm false [1, 2, 3])
      (by rfl)⟩

/-! ## Claim C10: tag-to-format round trip -/

/-- C10: for every TexFormat `f`, `from_magic (f.magic())` equals `f`
whenever `f.magic()` is not the generic "DX10" tag, and equals the
provisional default BC7-unorm when it is; in particular the
tag-to-format mapping round-trips exactly for the non-ambiguous tags
UNKN, DXT1, BC4U and BC5U. -/
theorem c10_tag_round_trip (f : TexFormat) :
    (f.magicBytes ≠ TexFormat.dx10Tag →
      TexFormat.from_magic f.magicBytes = f) ∧
    (f.magicBytes = TexFormat.dx10Tag →
      TexFormat.from_magic f.magicBytes = TexFormat.DxgiFormatBc7Unorm) := by
  cases f <;>
    exact ⟨fun hne => by first | rfl | exact absurd rfl hne,
      fun heq => by first | rfl | exact absurd heq (by decide)⟩

/-- Witness for C10 at the non-ambiguous DXT1 tag and the generic tag of
BC6H. -/
theorem c10_tag_round_trip_witness :
    TexFormat.from_magic TexFormat.DxgiFormatBc1Unorm.magicBytes =
      TexFormat.DxgiFormatBc1Unorm ∧
    TexFormat.from_magic TexFormat.DxgiFormatBc6hUf16.magicBytes =
      TexFormat.DxgiFormatBc7Unorm :=
  ⟨(c10_tag_round_trip TexFormat.DxgiFormatBc1Unorm).1 (by decide),
   (c10_tag_round_trip TexFormat.DxgiFormatBc6hUf16).2 (by decide)⟩

end TexConvert
